import Mathlib

/-!
Verification of the M-Pesa clone ledger core (mpesa_app/views.py, mpesa_app/models.py).

Python `Decimal` money values are modelled as exact rationals: every amount,
balance and fee handled by the views is a fixed-point decimal, and the exact
rational semantics agrees with `decimal.Decimal` on all such values
(the 28-significant-digit context never rounds at these scales); the one place
the code rounds, `quantize(Decimal('0.01'))` in the loan views, is modelled
explicitly by `quantize2` with the context's default ROUND_HALF_EVEN mode.
Django ORM state is modelled as a `State` record of lookup maps, and each
viewset `create`/`action` body is translated step for step into a function
`State -> Except Err ...` returning the mutated state together with the rows
it persisted.
-/

namespace Mpesa

/-- Money: exact value of a Python `Decimal` amount. -/
abbrev Money : Type := ℚ

/-- Transaction types of the `TransactionCharge` model (models.py TRANSACTION_TYPES). -/
inductive ChargeType : Type
  | SEND_MONEY
  | WITHDRAWAL
  | PAYBILL
  | BUY_GOODS
deriving DecidableEq, Repr

/-- One row of the `TransactionCharge` table (models.py, class TransactionCharge). -/
structure ChargeBand : Type where
  transaction_type : ChargeType
  min_amount : Money
  max_amount : Money
  charge : Money
  is_active : Bool
deriving DecidableEq, Repr

/-- Errors and uncaught exceptions the view code can produce. -/
inductive Err : Type
  | notFound
  | insufficientBalance
  | insufficientFloat
  | forbidden
  | multipleObjectsReturned
  | loanNotActive
  | loanNotPending
  | amountOutOfRange
  | hasActiveLoan
deriving DecidableEq, Repr

/-- The filter applied by `TransactionCharge.objects.get(...)` in
`get_transaction_charge` (views.py lines 48-53): same transaction type,
`min_amount <= amount`, `max_amount >= amount`, `is_active = True`. -/
def bandMatches (ty : ChargeType) (amount : Money) (c : ChargeBand) : Bool :=
  c.transaction_type == ty && decide (c.min_amount ≤ amount)
    && decide (amount ≤ c.max_amount) && c.is_active

/-- The rows matched by the `objects.get` queryset for a given configuration. -/
def matchingBands (bands : List ChargeBand) (ty : ChargeType) (amount : Money) :
    List ChargeBand :=
  bands.filter (bandMatches ty amount)

/-- Translation of `get_transaction_charge` (views.py lines 45-56): Django
`objects.get` returns the unique matching row, raises `DoesNotExist` when no
row matches (caught, yielding `Decimal('0.00')`) and raises
`MultipleObjectsReturned` when several rows match (not caught). -/
def get_transaction_charge (bands : List ChargeBand) (ty : ChargeType)
    (amount : Money) : Except Err Money :=
  match matchingBands bands ty amount with
  | [] => .ok 0
  | [c] => .ok c.charge
  | _ :: _ :: _ => .error .multipleObjectsReturned

/-- Claim C6: the charge resolver returns the flat fee of the unique active
band whose inclusive range contains the amount, returns exactly 0.00 (not an
error) when no active band matches, and its result is a function of the
(kind, amount, band configuration) triple alone, so identical calls return
the identical fee. -/
theorem charge_resolver_correct (bands : List ChargeBand) (ty : ChargeType)
    (amount : Money) :
    (matchingBands bands ty amount = [] →
      get_transaction_charge bands ty amount = .ok 0) ∧
    (∀ c : ChargeBand, matchingBands bands ty amount = [c] →
      get_transaction_charge bands ty amount = .ok c.charge) ∧
    (∀ bands2 : List ChargeBand,
      matchingBands bands2 ty amount = matchingBands bands ty amount →
      get_transaction_charge bands2 ty amount =
        get_transaction_charge bands ty amount) := by
  refine ⟨fun h => ?_, fun c h => ?_, fun bands2 h => ?_⟩
  · simp [get_transaction_charge, h]
  · simp [get_transaction_charge, h]
  · simp [get_transaction_charge, h]

/-- Concrete instance for `charge_resolver_correct`: a single active
SEND_MONEY band for amounts 100-500 with flat fee 10 resolves a 200 transfer
to fee 10, and the empty configuration resolves it to fee 0. -/
theorem charge_resolver_correct_witness :
    get_transaction_charge [⟨.SEND_MONEY, 100, 500, 10, true⟩] .SEND_MONEY 200
        = .ok (⟨ChargeType.SEND_MONEY, 100, 500, 10, true⟩ : ChargeBand).charge ∧
    get_transaction_charge [] .SEND_MONEY 200 = .ok 0 := by
  refine ⟨(charge_resolver_correct _ _ _).2.1 _ (by decide),
    (charge_resolver_correct [] .SEND_MONEY 200).1 (by decide)⟩

/-- Claim C9: when two or more active bands of the same transaction type both
contain the amount, `get_transaction_charge` does not return a fee: the
uncaught `MultipleObjectsReturned` exception propagates, since only the
no-match `DoesNotExist` case is handled; and the code path returning the
zero-fee fallback is reached only when zero bands match (an `.ok 0` result
otherwise requires a unique matching band whose configured charge is 0). -/
theorem charge_resolver_overlap_raises (bands : List ChargeBand)
    (ty : ChargeType) (amount : Money) :
    (2 ≤ (matchingBands bands ty amount).length →
      get_transaction_charge bands ty amount = .error .multipleObjectsReturned) ∧
    (get_transaction_charge bands ty amount = .ok 0 →
      matchingBands bands ty amount = [] ∨
        ∃ c : ChargeBand, matchingBands bands ty amount = [c] ∧ c.charge = 0) := by
  constructor
  · intro h
    unfold get_transaction_charge
    match hm : matchingBands bands ty amount with
    | [] => rw [hm] at h; simp at h
    | [c] => rw [hm] at h; simp at h
    | _ :: _ :: _ => rfl
  · intro h
    unfold get_transaction_charge at h
    match hm : matchingBands bands ty amount with
    | [] => exact Or.inl rfl
    | [c] =>
        rw [hm] at h
        simp only [Except.ok.injEq] at h
        exact Or.inr ⟨c, rfl, h⟩
    | _ :: _ :: _ => rw [hm] at h; simp at h

/-- Concrete instance for `charge_resolver_overlap_raises`: two overlapping
active SEND_MONEY bands both containing amount 60 make the resolver raise. -/
theorem charge_resolver_overlap_raises_witness :
    get_transaction_charge
        [⟨.SEND_MONEY, 0, 100, 5, true⟩, ⟨.SEND_MONEY, 50, 200, 10, true⟩]
        .SEND_MONEY 60 = .error .multipleObjectsReturned :=
  (charge_resolver_overlap_raises _ _ _).1 (by decide)

/-- Status values of the transaction models (models.py STATUS_CHOICES). -/
inductive TxStatus : Type
  | PENDING
  | COMPLETED
  | FAILED
  | REVERSED
deriving DecidableEq, Repr, Inhabited

/-- `WalletTransaction.TRANSACTION_TYPES` (models.py lines 87-98). -/
inductive WTxnType : Type
  | DEPOSIT
  | WITHDRAWAL
  | TRANSFER
  | PAYMENT
  | AIRTIME
  | PAYBILL
  | BUY_GOODS
deriving DecidableEq, Repr, Inhabited

/-- `Commission.COMMISSION_TYPES` (models.py lines 413-417). -/
inductive CommissionType : Type
  | DEPOSIT
  | WITHDRAWAL
deriving DecidableEq, Repr, Inhabited

/-- A `Wallet` row (models.py, class Wallet): the fields the transfer code
reads and writes. -/
structure WalletS : Type where
  balance : Money
  is_active : Bool
deriving DecidableEq, Repr, Inhabited

/-- `Wallet.can_transact` (models.py lines 80-82):
`self.is_active and self.balance >= amount`. -/
def WalletS.can_transact (w : WalletS) (amount : Money) : Bool :=
  w.is_active && decide (w.balance ≥ amount)

/-- An `Agent` row (models.py, class Agent): the fields the transfer code
uses. `is_active_status` is `status == 'ACTIVE'`. -/
structure AgentRec : Type where
  userId : Nat
  float_balance : Money
  commission_rate : Money
  is_active_status : Bool
deriving DecidableEq, Repr, Inhabited

/-- `Merchant.MERCHANT_TYPES` used by the payment views (models.py). -/
inductive MerchType : Type
  | PAYBILL
  | TILL
  | ONLINE
deriving DecidableEq, Repr, Inhabited

/-- A `Merchant` row (models.py, class Merchant): the fields the payment
views use. `userId` keys `merchant.user.wallet`. -/
structure MerchantRec : Type where
  userId : Nat
  merchant_type : MerchType
  is_active_status : Bool
deriving DecidableEq, Repr, Inhabited

/-- The persistent store the views read and mutate: each user id owns one
wallet (`user.wallet`); users are looked up by phone number, agents by
`agent_number`, merchants by `business_number`; `bands` is the
`TransactionCharge` table. -/
structure State : Type where
  wallets : Nat → WalletS
  userOfPhone : String → Option Nat
  agents : String → Option AgentRec
  merchants : String → Option MerchantRec
  bands : List ChargeBand

instance : Inhabited State :=
  ⟨⟨fun _ => default, fun _ => none, fun _ => none, fun _ => none, []⟩⟩

/-- A persisted `WalletTransaction` ledger row (models.py, class
WalletTransaction): the fields the views fill. -/
structure WalletTxn : Type where
  wallet : Nat
  transaction_type : WTxnType
  amount : Money
  balance_before : Money
  balance_after : Money
  status : TxStatus
deriving DecidableEq, Repr, Inhabited

/-- An `AgentFloat` ledger row (models.py, class AgentFloat). The views
never construct one; the type is kept so its absence is statable. -/
structure AgentFloatRow : Type where
  agent : String
  amount : Money
deriving DecidableEq, Repr, Inhabited

/-- A persisted `Commission` row (models.py, class Commission). -/
structure CommissionRec : Type where
  recipient : Nat
  commission_type : CommissionType
  amount : Money
deriving DecidableEq, Repr, Inhabited

/-- What a view call leaves behind: the mutated store plus every
`WalletTransaction`, `AgentFloat` and `Commission` row it persisted. -/
structure OpResult : Type where
  state : State
  walletTxns : List WalletTxn
  floatRows : List AgentFloatRow
  commissions : List CommissionRec

instance : Inhabited OpResult := ⟨⟨default, [], [], []⟩⟩

/-- `wallet.save()` after assigning a whole wallet record. -/
def setWallet (s : State) (uid : Nat) (w : WalletS) : State :=
  { s with wallets := fun u => if u = uid then w else s.wallets u }

/-- `wallet.balance = b; wallet.save()`. -/
def setBalance (s : State) (uid : Nat) (b : Money) : State :=
  setWallet s uid { s.wallets uid with balance := b }

/-- `agent.save()` after mutating the agent row found under `num`. -/
def setAgent (s : State) (num : String) (a : AgentRec) : State :=
  { s with agents := fun n => if n = num then some a else s.agents n }

theorem setWallet_wallets_same (s : State) (uid : Nat) (w : WalletS) :
    (setWallet s uid w).wallets uid = w := by
  simp [setWallet]

theorem setWallet_wallets_other (s : State) (uid : Nat) (w : WalletS)
    (u : Nat) (h : u ≠ uid) : (setWallet s uid w).wallets u = s.wallets u := by
  simp [setWallet, h]

theorem setBalance_wallets_same (s : State) (uid : Nat) (b : Money) :
    (setBalance s uid b).wallets uid = { s.wallets uid with balance := b } :=
  setWallet_wallets_same ..

theorem setBalance_wallets_other (s : State) (uid : Nat) (b : Money)
    (u : Nat) (h : u ≠ uid) : (setBalance s uid b).wallets u = s.wallets u :=
  setWallet_wallets_other _ _ _ _ h

theorem setWallet_nonneg (s : State) (uid : Nat) (w : WalletS)
    (hw : 0 ≤ w.balance) (hall : ∀ u, 0 ≤ (s.wallets u).balance) :
    ∀ u, 0 ≤ ((setWallet s uid w).wallets u).balance := by
  intro u
  by_cases h : u = uid
  · subst h; rw [setWallet_wallets_same]; exact hw
  · rw [setWallet_wallets_other _ _ _ _ h]; exact hall u

/-- A persisted `SendMoney` row (models.py, class SendMoney): the fields the
view fills. -/
structure SendMoneyTx : Type where
  sender : Nat
  receiver : Nat
  amount : Money
  charge : Money
  total_amount : Money
  sender_balance_before : Money
  sender_balance_after : Money
  receiver_balance_before : Money
  receiver_balance_after : Money
  status : TxStatus
deriving DecidableEq, Repr, Inhabited

/-- Translation of `SendMoneyViewSet.create` (views.py lines 333-421),
step for step: resolve the receiver by phone, resolve the SEND_MONEY charge,
check `sender_wallet.can_transact(total_amount)`, debit the sender, credit
the receiver (a fresh read of the receiver's wallet, after the sender's
save), then persist the `SendMoney` record and one `WalletTransaction` per
wallet. An uncaught resolver exception propagates. -/
def sendMoneyCreate (s : State) (senderId : Nat) (receiver_phone : String)
    (amount : Money) : Except Err (OpResult × SendMoneyTx) :=
  match s.userOfPhone receiver_phone with
  | none => .error .notFound
  | some receiverId =>
    match get_transaction_charge s.bands .SEND_MONEY amount with
    | .error e => .error e
    | .ok charge =>
      let total_amount := amount + charge
      if (s.wallets senderId).can_transact total_amount then
        let sender_balance_before := (s.wallets senderId).balance
        let sender_balance_after := sender_balance_before - total_amount
        let s1 := setBalance s senderId sender_balance_after
        let receiver_balance_before := (s1.wallets receiverId).balance
        let receiver_balance_after := receiver_balance_before + amount
        let s2 := setBalance s1 receiverId receiver_balance_after
        .ok (⟨s2,
          [⟨senderId, .TRANSFER, total_amount, sender_balance_before,
              sender_balance_after, .COMPLETED⟩,
            ⟨receiverId, .TRANSFER, amount, receiver_balance_before,
              receiver_balance_after, .COMPLETED⟩],
          [], []⟩,
          ⟨senderId, receiverId, amount, charge, total_amount,
            sender_balance_before, sender_balance_after,
            receiver_balance_before, receiver_balance_after, .COMPLETED⟩)
      else .error .insufficientBalance

/-- Claim C1 (amended: sender and receiver distinct): a completed send-money
transfer of amount a with resolved fee f debits the sender's wallet by
exactly a + f, credits the receiver's wallet by exactly a, records
total_amount = a + f and status COMPLETED, and the recorded
sender_balance_after / receiver_balance_after equal the live wallet balances
immediately after the call. -/
theorem send_money_distinct_correct (s : State) (senderId receiverId : Nat)
    (ph : String) (amount fee : Money) (res : OpResult × SendMoneyTx)
    (hph : s.userOfPhone ph = some receiverId)
    (hne : receiverId ≠ senderId)
    (hfee : get_transaction_charge s.bands .SEND_MONEY amount = .ok fee)
    (hok : sendMoneyCreate s senderId ph amount = .ok res) :
    res.2.status = .COMPLETED ∧
    res.2.total_amount = amount + fee ∧
    (res.1.state.wallets senderId).balance
      = (s.wallets senderId).balance - (amount + fee) ∧
    (res.1.state.wallets receiverId).balance
      = (s.wallets receiverId).balance + amount ∧
    res.2.sender_balance_after = (res.1.state.wallets senderId).balance ∧
    res.2.receiver_balance_after = (res.1.state.wallets receiverId).balance := by
  unfold sendMoneyCreate at hok
  simp only [hph, hfee] at hok
  split at hok
  · injection hok with h
    subst h
    refine ⟨rfl, rfl, ?_, ?_, ?_, ?_⟩ <;>
      simp [setBalance_wallets_same, setBalance_wallets_other, hne, Ne.symm hne]
  · exact absurd hok (by simp)

/-- Scenario state for claim C1: wallet A (user 0) has balance 1000, wallet B
(user 1) has balance 1000, and SEND_MONEY amounts 100-500 carry a flat fee
of 10. -/
def c1State : State :=
  { wallets := fun u =>
      if u = 0 then ⟨1000, true⟩ else if u = 1 then ⟨1000, true⟩ else ⟨0, true⟩,
    userOfPhone := fun p =>
      if p = "B" then some 1 else if p = "A" then some 0 else none,
    agents := fun _ => none,
    merchants := fun _ => none,
    bands := [⟨.SEND_MONEY, 100, 500, 10, true⟩] }

/-- Result of A sending 200 to B in the claim C1 scenario. -/
def c1Out : OpResult × SendMoneyTx :=
  (⟨setBalance (setBalance c1State 0 790) 1 1200,
    [⟨0, .TRANSFER, 210, 1000, 790, .COMPLETED⟩,
      ⟨1, .TRANSFER, 200, 1000, 1200, .COMPLETED⟩],
    [], []⟩,
    ⟨0, 1, 200, 10, 210, 1000, 790, 1000, 1200, .COMPLETED⟩)

theorem c1_eval : sendMoneyCreate c1State 0 "B" 200 = .ok c1Out := by
  norm_num [sendMoneyCreate, c1Out, c1State, get_transaction_charge,
    matchingBands, bandMatches, WalletS.can_transact, setBalance, setWallet]

/-- Concrete instance for `send_money_distinct_correct`: the spec scenario.
A sends 200 to B with fee 10: A ends at 790, B at 1200, total 210, status
COMPLETED, and the recorded after-balances equal the live ones. -/
theorem send_money_distinct_correct_witness :
    (c1Out.1.state.wallets 0).balance = 790 ∧
    (c1Out.1.state.wallets 1).balance = 1200 ∧
    c1Out.2.total_amount = 210 ∧
    c1Out.2.status = .COMPLETED ∧
    c1Out.2.sender_balance_after = (c1Out.1.state.wallets 0).balance ∧
    c1Out.2.receiver_balance_after = (c1Out.1.state.wallets 1).balance := by
  have h := send_money_distinct_correct c1State 0 1 "B" 200 10 c1Out
    (by norm_num [c1State]) (by norm_num)
    (by norm_num [c1State, get_transaction_charge, matchingBands, bandMatches])
    c1_eval
  refine ⟨h.2.2.1.trans ?_, h.2.2.2.1.trans ?_, h.2.1.trans ?_, h.1,
    h.2.2.2.2.1, h.2.2.2.2.2⟩ <;> norm_num [c1State]

/-- Self-send state for the claim C1 counterexample: user 0 holds 1000 and
phone A resolves to user 0 themselves. -/
def c1SelfState : State :=
  { wallets := fun _ => ⟨1000, true⟩,
    userOfPhone := fun p => if p = "A" then some 0 else none,
    agents := fun _ => none,
    merchants := fun _ => none,
    bands := [⟨.SEND_MONEY, 100, 500, 10, true⟩] }

/-- Result of user 0 sending 200 to their own phone: the second (receiver)
save re-reads the already debited wallet, so the wallet ends at 990 while
the recorded sender snapshot says 790. -/
def c1SelfOut : OpResult × SendMoneyTx :=
  (⟨setBalance (setBalance c1SelfState 0 790) 0 990,
    [⟨0, .TRANSFER, 210, 1000, 790, .COMPLETED⟩,
      ⟨0, .TRANSFER, 200, 790, 990, .COMPLETED⟩],
    [], []⟩,
    ⟨0, 0, 200, 10, 210, 1000, 790, 790, 990, .COMPLETED⟩)

/-- Counterexample to claim C1 as stated: a completed self-transfer (sender =
receiver = user 0, balance 1000, amount 200, fee 10) records
sender_balance_after = 790 while the live wallet balance after the call is
990; the wallet decreased by 10, not by total_amount = 210, and the recorded
snapshot differs from the live balance. -/
theorem send_money_self_counterexample :
    sendMoneyCreate c1SelfState 0 "A" 200 = .ok c1SelfOut ∧
    c1SelfOut.2.status = .COMPLETED ∧
    c1SelfOut.2.total_amount = 210 ∧
    c1SelfOut.2.sender_balance_after = 790 ∧
    (c1SelfOut.1.state.wallets 0).balance = 990 ∧
    ¬ ((c1SelfOut.1.state.wallets 0).balance
        = (c1SelfState.wallets 0).balance - c1SelfOut.2.total_amount) ∧
    ¬ (c1SelfOut.2.sender_balance_after
        = (c1SelfOut.1.state.wallets 0).balance) := by
  refine ⟨?_, rfl, rfl, rfl, ?_, ?_, ?_⟩ <;>
    norm_num [sendMoneyCreate, c1SelfOut, c1SelfState, get_transaction_charge,
      matchingBands, bandMatches, WalletS.can_transact, setBalance, setWallet]

/-- State for the claim C7 failing input: sender (user 0) and receiver
(user 1) both hold 0; no charge band matches. -/
def c7State : State :=
  { wallets := fun _ => ⟨0, true⟩,
    userOfPhone := fun p => if p = "B" then some 1 else none,
    agents := fun _ => none,
    merchants := fun _ => none,
    bands := [] }

/-- Result of user 0 sending -100 to user 1. -/
def c7Out : OpResult × SendMoneyTx :=
  (⟨setBalance (setBalance c7State 0 100) 1 (-100),
    [⟨0, .TRANSFER, -100, 0, 100, .COMPLETED⟩,
      ⟨1, .TRANSFER, -100, 0, -100, .COMPLETED⟩],
    [], []⟩,
    ⟨0, 1, -100, 0, -100, 0, 100, 0, -100, .COMPLETED⟩)

/-- Claim C7 evaluated at its failing input: a send-money request of amount
-100 is not rejected with a typed InvalidAmount error; no amount validation
exists, `can_transact` passes (0 >= -100), the transfer completes with
status COMPLETED, persists the SendMoney record and two ledger rows, credits
the sender 100 and drives the receiver to -100. -/
theorem negative_amount_send_completes :
    sendMoneyCreate c7State 0 "B" (-100) = .ok c7Out ∧
    c7Out.2.status = .COMPLETED ∧
    c7Out.2.amount = -100 ∧
    c7Out.1.walletTxns.length = 2 ∧
    (c7Out.1.state.wallets 0).balance = 100 ∧
    (c7Out.1.state.wallets 1).balance = -100 := by
  refine ⟨?_, rfl, rfl, rfl, ?_, ?_⟩ <;>
    norm_num [sendMoneyCreate, c7Out, c7State, get_transaction_charge,
      matchingBands, bandMatches, WalletS.can_transact, setBalance, setWallet]

/-- A persisted `Withdrawal` row (models.py, class Withdrawal): the fields
the view fills. The agent is referenced by `agent_number`. -/
structure WithdrawalTx : Type where
  customer : Nat
  agent : String
  amount : Money
  charge : Money
  total_amount : Money
  customer_balance_before : Money
  customer_balance_after : Money
  agent_commission : Money
  status : TxStatus
deriving DecidableEq, Repr, Inhabited

/-- Translation of `WithdrawalViewSet.create` (views.py lines 442-528):
look up the ACTIVE agent, check the agent float, resolve the WITHDRAWAL
charge, take 30% of it as commission, check `can_transact(total)`, debit the
customer, debit the agent float, persist the Withdrawal record, one
`WalletTransaction` for the customer, and the Commission record. No
`AgentFloat` row is written for the float mutation. -/
def withdrawalCreate (s : State) (customerId : Nat) (agent_number : String)
    (amount : Money) : Except Err (OpResult × WithdrawalTx) :=
  match s.agents agent_number with
  | none => .error .notFound
  | some agent =>
    if agent.is_active_status then
      if agent.float_balance < amount then .error .insufficientFloat
      else
        match get_transaction_charge s.bands .WITHDRAWAL amount with
        | .error e => .error e
        | .ok charge =>
          let total_amount := amount + charge
          let commission := charge * (3 / 10)
          if (s.wallets customerId).can_transact total_amount then
            let customer_balance_before := (s.wallets customerId).balance
            let customer_balance_after := customer_balance_before - total_amount
            let s1 := setBalance s customerId customer_balance_after
            let s2 := setAgent s1 agent_number
              { agent with float_balance := agent.float_balance - amount }
            .ok (⟨s2,
              [⟨customerId, .WITHDRAWAL, total_amount, customer_balance_before,
                  customer_balance_after, .COMPLETED⟩],
              [],
              [⟨agent.userId, .WITHDRAWAL, commission⟩]⟩,
              ⟨customerId, agent_number, amount, charge, total_amount,
                customer_balance_before, customer_balance_after, commission,
                .COMPLETED⟩)
          else .error .insufficientBalance
    else .error .notFound

/-- A persisted `Deposit` row (models.py, class Deposit): the fields the
view fills. -/
structure DepositTx : Type where
  customer : Nat
  agent : String
  amount : Money
  customer_balance_before : Money
  customer_balance_after : Money
  agent_commission : Money
  status : TxStatus
deriving DecidableEq, Repr, Inhabited

/-- Translation of `DepositViewSet.create` (views.py lines 549-631): only an
agent-typed caller may deposit; look up the caller's agent profile and the
customer by phone, check the agent float, compute the rate commission
`amount * commission_rate / 100`, credit the customer, debit the agent
float, persist the Deposit record, one `WalletTransaction` for the customer,
and the Commission record. No amount validation and no `AgentFloat` row. -/
def depositCreate (s : State) (callerIsAgent : Bool) (agent_number : String)
    (customer_phone : String) (amount : Money) :
    Except Err (OpResult × DepositTx) :=
  if callerIsAgent then
    match s.agents agent_number with
    | none => .error .notFound
    | some agent =>
      match s.userOfPhone customer_phone with
      | none => .error .notFound
      | some customerId =>
        if agent.float_balance < amount then .error .insufficientFloat
        else
          let commission := amount * agent.commission_rate / 100
          let customer_balance_before := (s.wallets customerId).balance
          let customer_balance_after := customer_balance_before + amount
          let s1 := setBalance s customerId customer_balance_after
          let s2 := setAgent s1 agent_number
            { agent with float_balance := agent.float_balance - amount }
          .ok (⟨s2,
            [⟨customerId, .DEPOSIT, amount, customer_balance_before,
                customer_balance_after, .COMPLETED⟩],
            [],
            [⟨agent.userId, .DEPOSIT, commission⟩]⟩,
            ⟨customerId, agent_number, amount, customer_balance_before,
              customer_balance_after, commission, .COMPLETED⟩)
  else .error .forbidden

/-- A persisted `PayBill` row (models.py, class PayBill): the fields the
view fills. -/
structure PayBillTx : Type where
  payer : Nat
  business_number : String
  account_number : String
  amount : Money
  charge : Money
  total_amount : Money
  payer_balance_before : Money
  payer_balance_after : Money
  status : TxStatus
deriving DecidableEq, Repr, Inhabited

/-- Translation of `PayBillViewSet.create` (views.py lines 652-730): look up
the ACTIVE PAYBILL merchant by business number, resolve the PAYBILL charge,
check `can_transact(total)`, debit the payer, credit the merchant user's
wallet, persist the PayBill record and a single `WalletTransaction` for the
payer's wallet only — none for the credited merchant wallet. -/
def payBillCreate (s : State) (payerId : Nat)
    (business_number account_number : String) (amount : Money) :
    Except Err (OpResult × PayBillTx) :=
  match s.merchants business_number with
  | none => .error .notFound
  | some merchant =>
    if merchant.merchant_type == .PAYBILL && merchant.is_active_status then
      match get_transaction_charge s.bands .PAYBILL amount with
      | .error e => .error e
      | .ok charge =>
        let total_amount := amount + charge
        if (s.wallets payerId).can_transact total_amount then
          let payer_balance_before := (s.wallets payerId).balance
          let payer_balance_after := payer_balance_before - total_amount
          let s1 := setBalance s payerId payer_balance_after
          let s2 := setBalance s1 merchant.userId
            ((s1.wallets merchant.userId).balance + amount)
          .ok (⟨s2,
            [⟨payerId, .PAYBILL, total_amount, payer_balance_before,
                payer_balance_after, .COMPLETED⟩],
            [], []⟩,
            ⟨payerId, business_number, account_number, amount, charge,
              total_amount, payer_balance_before, payer_balance_after,
              .COMPLETED⟩)
        else .error .insufficientBalance
    else .error .notFound

/-- A persisted `BuyGoods` row (models.py, class BuyGoods): the fields the
view fills. -/
structure BuyGoodsTx : Type where
  buyer : Nat
  till_number : String
  amount : Money
  charge : Money
  total_amount : Money
  buyer_balance_before : Money
  buyer_balance_after : Money
  status : TxStatus
deriving DecidableEq, Repr, Inhabited

/-- Translation of `BuyGoodsViewSet.create` (views.py lines 751-827): same
shape as paybill with a TILL merchant and the BUY_GOODS charge kind; again a
single `WalletTransaction` for the buyer only. -/
def buyGoodsCreate (s : State) (buyerId : Nat) (till_number : String)
    (amount : Money) : Except Err (OpResult × BuyGoodsTx) :=
  match s.merchants till_number with
  | none => .error .notFound
  | some merchant =>
    if merchant.merchant_type == .TILL && merchant.is_active_status then
      match get_transaction_charge s.bands .BUY_GOODS amount with
      | .error e => .error e
      | .ok charge =>
        let total_amount := amount + charge
        if (s.wallets buyerId).can_transact total_amount then
          let buyer_balance_before := (s.wallets buyerId).balance
          let buyer_balance_after := buyer_balance_before - total_amount
          let s1 := setBalance s buyerId buyer_balance_after
          let s2 := setBalance s1 merchant.userId
            ((s1.wallets merchant.userId).balance + amount)
          .ok (⟨s2,
            [⟨buyerId, .BUY_GOODS, total_amount, buyer_balance_before,
                buyer_balance_after, .COMPLETED⟩],
            [], []⟩,
            ⟨buyerId, till_number, amount, charge, total_amount,
              buyer_balance_before, buyer_balance_after, .COMPLETED⟩)
        else .error .insufficientBalance
    else .error .notFound

/-- A persisted `AirtimePurchase` row (models.py, class AirtimePurchase):
the fields the view fills. -/
structure AirtimePurchaseTx : Type where
  buyer : Nat
  recipient_phone : String
  network : String
  amount : Money
  buyer_balance_before : Money
  buyer_balance_after : Money
  status : TxStatus
deriving DecidableEq, Repr, Inhabited

/-- Translation of `AirtimePurchaseViewSet.create` (views.py lines 845-897):
no charge lookup; check `can_transact(amount)`, debit the buyer, persist the
AirtimePurchase record and one `WalletTransaction`. -/
def airtimeCreate (s : State) (buyerId : Nat)
    (recipient_phone network : String) (amount : Money) :
    Except Err (OpResult × AirtimePurchaseTx) :=
  if (s.wallets buyerId).can_transact amount then
    let buyer_balance_before := (s.wallets buyerId).balance
    let buyer_balance_after := buyer_balance_before - amount
    let s1 := setBalance s buyerId buyer_balance_after
    .ok (⟨s1,
      [⟨buyerId, .AIRTIME, amount, buyer_balance_before, buyer_balance_after,
          .COMPLETED⟩],
      [], []⟩,
      ⟨buyerId, recipient_phone, network, amount, buyer_balance_before,
        buyer_balance_after, .COMPLETED⟩)
  else .error .insufficientBalance

/-- `Loan.STATUS_CHOICES` (models.py lines 450-458). -/
inductive LoanStatus : Type
  | PENDING
  | APPROVED
  | DISBURSED
  | ACTIVE
  | PAID
  | DEFAULTED
  | REJECTED
deriving DecidableEq, Repr, Inhabited

/-- A `LoanProduct` row (models.py, class LoanProduct): the fields the loan
views use. `interest_rate` is an annual percentage. -/
structure LoanProduct : Type where
  min_amount : Money
  max_amount : Money
  interest_rate : Money
  duration_days : Nat
  facilitation_fee : Money
  is_active : Bool
deriving DecidableEq, Repr, Inhabited

/-- A `Loan` row (models.py, class Loan): the fields the loan views read and
write. -/
structure Loan : Type where
  borrower : Nat
  principal_amount : Money
  interest_amount : Money
  facilitation_fee : Money
  total_amount : Money
  amount_paid : Money
  balance : Money
  status : LoanStatus
deriving DecidableEq, Repr, Inhabited

/-- Rounding of a rational to an integer with ties going to the even
neighbour: the semantics of Python `decimal` ROUND_HALF_EVEN, the default
rounding of the context under which the views call `quantize`. -/
def roundHalfEven (x : ℚ) : ℤ :=
  let f := ⌊x⌋
  if x - f < 1 / 2 then f
  else if 1 / 2 < x - f then f + 1
  else if f % 2 = 0 then f else f + 1

/-- `value.quantize(Decimal('0.01'))` under the default decimal context:
round to 2 decimal places, ties to even. -/
def quantize2 (x : ℚ) : ℚ := (roundHalfEven (100 * x) : ℚ) / 100

/-- Rounding of a rational to an integer with ties going away from zero:
the semantics of decimal ROUND_HALF_UP, which the spec names. -/
def roundHalfUp (x : ℚ) : ℤ :=
  let f := ⌊x⌋
  if x - f < 1 / 2 then f
  else if 1 / 2 < x - f then f + 1
  else if x < 0 then f else f + 1

/-- Rounding to 2 decimal places with ties away from zero, as the spec's
round-half-up prescribes; for comparison against `quantize2`. -/
def quantizeHalfUp2 (x : ℚ) : ℚ := (roundHalfUp (100 * x) : ℚ) / 100

/-- Translation of `LoanViewSet.create` (views.py lines 1007-1062): the
product must be active, the principal within [min_amount, max_amount], and
the borrower free of loans in ACTIVE/DISBURSED/APPROVED (`hasActiveLoan`).
`interest = principal * (annual_rate / 365 / 100) * duration_days`,
`total = principal + interest + facilitation_fee`; the stored interest,
total and opening balance are quantized to 2 decimal places; amount_paid
starts at its model default 0 and status at PENDING. -/
def loanCreate (product : LoanProduct) (hasActiveLoan : Bool) (borrower : Nat)
    (principal_amount : Money) : Except Err Loan :=
  if product.is_active then
    if principal_amount < product.min_amount
        ∨ product.max_amount < principal_amount then
      .error .amountOutOfRange
    else if hasActiveLoan then .error .hasActiveLoan
    else
      let daily_rate := product.interest_rate / 365 / 100
      let interest_amount :=
        principal_amount * daily_rate * (product.duration_days : ℚ)
      let total_amount :=
        principal_amount + interest_amount + product.facilitation_fee
      .ok { borrower := borrower,
            principal_amount := principal_amount,
            interest_amount := quantize2 interest_amount,
            facilitation_fee := product.facilitation_fee,
            total_amount := quantize2 total_amount,
            amount_paid := 0,
            balance := quantize2 total_amount,
            status := .PENDING }
  else .error .notFound

/-- Translation of `LoanViewSet.approve` (views.py lines 1064-1098) acting
on the loan and the borrower's wallet: only a PENDING loan is approved; the
wallet is credited with the principal, the loan becomes DISBURSED, and one
`WalletTransaction` (type DEPOSIT) is persisted. -/
def loanApproveCore (l : Loan) (w : WalletS) :
    Except Err (Loan × WalletS × WalletTxn) :=
  if l.status = .PENDING then
    let balance_before := w.balance
    let w1 : WalletS := { w with balance := w.balance + l.principal_amount }
    let l1 : Loan := { l with status := .DISBURSED }
    .ok (l1, w1,
      ⟨l.borrower, .DEPOSIT, l.principal_amount, balance_before, w1.balance,
        .COMPLETED⟩)
  else .error .loanNotPending

/-- A persisted `LoanRepayment` row (models.py, class LoanRepayment): the
fields the view fills. -/
structure LoanRepaymentRec : Type where
  amount : Money
  balance_before : Money
  balance_after : Money
deriving DecidableEq, Repr, Inhabited

/-- Translation of `LoanViewSet.repay` (views.py lines 1100-1163) acting on
the loan and the calling user's wallet: only an ACTIVE or DISBURSED loan can
be repaid; the amount is clamped to the remaining balance; the wallet must
`can_transact` the clamped amount; the wallet is debited, amount_paid and
balance updated, status set to PAID exactly when the balance reaches 0 and
to ACTIVE otherwise; a LoanRepayment row and one `WalletTransaction` are
persisted. -/
def loanRepayCore (callerId : Nat) (l : Loan) (w : WalletS) (amount : Money) :
    Except Err (Loan × WalletS × LoanRepaymentRec × WalletTxn) :=
  if l.status = .ACTIVE ∨ l.status = .DISBURSED then
    let amount2 := if l.balance < amount then l.balance else amount
    if w.can_transact amount2 then
      let balance_before := w.balance
      let w1 : WalletS := { w with balance := w.balance - amount2 }
      let balance_before_loan := l.balance
      let l1 : Loan := { l with
        amount_paid := l.amount_paid + amount2,
        balance := l.balance - amount2,
        status := if l.balance - amount2 = 0 then .PAID else .ACTIVE }
      .ok (l1, w1, ⟨amount2, balance_before_loan, l1.balance⟩,
        ⟨callerId, .PAYMENT, amount2, balance_before, w1.balance, .COMPLETED⟩)
    else .error .insufficientBalance
  else .error .loanNotActive

/-- The wallet-mutating requests of the API, with the request fields each
view reads. -/
inductive Op : Type
  | sendMoney (senderId : Nat) (receiver_phone : String) (amount : Money)
  | withdrawal (customerId : Nat) (agent_number : String) (amount : Money)
  | deposit (callerIsAgent : Bool) (agent_number customer_phone : String)
      (amount : Money)
  | payBill (payerId : Nat) (business_number account_number : String)
      (amount : Money)
  | buyGoods (buyerId : Nat) (till_number : String) (amount : Money)
  | airtime (buyerId : Nat) (recipient_phone network : String) (amount : Money)
  | loanApprove (loan : Loan)
  | loanRepay (callerId : Nat) (loan : Loan) (amount : Money)

/-- Run one request against the store, forgetting the request-specific
response record. Loan requests act on the borrower's (for approval) or the
caller's (for repayment) wallet inside the store. -/
def applyOp (s : State) : Op → Except Err OpResult
  | .sendMoney sid ph a => (sendMoneyCreate s sid ph a).map Prod.fst
  | .withdrawal cid an a => (withdrawalCreate s cid an a).map Prod.fst
  | .deposit b an cp a => (depositCreate s b an cp a).map Prod.fst
  | .payBill pid bn an a => (payBillCreate s pid bn an a).map Prod.fst
  | .buyGoods bid tn a => (buyGoodsCreate s bid tn a).map Prod.fst
  | .airtime bid rp nw a => (airtimeCreate s bid rp nw a).map Prod.fst
  | .loanApprove l =>
    match loanApproveCore l (s.wallets l.borrower) with
    | .error e => .error e
    | .ok (_, w1, txn) => .ok ⟨setWallet s l.borrower w1, [txn], [], []⟩
  | .loanRepay cid l a =>
    match loanRepayCore cid l (s.wallets cid) a with
    | .error e => .error e
    | .ok (_, w1, _, txn) => .ok ⟨setWallet s cid w1, [txn], [], []⟩

/-- The requested amount of an operation; for a loan approval the disbursed
principal plays that role. -/
def Op.reqAmount : Op → Money
  | .sendMoney _ _ a => a
  | .withdrawal _ _ a => a
  | .deposit _ _ _ a => a
  | .payBill _ _ _ a => a
  | .buyGoods _ _ a => a
  | .airtime _ _ _ a => a
  | .loanApprove l => l.principal_amount
  | .loanRepay _ _ a => a

theorem can_transact_le (w : WalletS) (a : Money)
    (h : w.can_transact a = true) : a ≤ w.balance := by
  unfold WalletS.can_transact at h
  simp only [Bool.and_eq_true, decide_eq_true_eq, ge_iff_le] at h
  exact h.2

theorem setBalance_nonneg (s : State) (uid : Nat) (b : Money) (hb : 0 ≤ b)
    (hall : ∀ u, 0 ≤ (s.wallets u).balance) :
    ∀ u, 0 ≤ ((setBalance s uid b).wallets u).balance :=
  setWallet_nonneg s uid _ hb hall

theorem setAgent_wallets (s : State) (num : String) (a : AgentRec) :
    (setAgent s num a).wallets = s.wallets := rfl

theorem sendMoney_ok_nonneg (s : State) (sid : Nat) (ph : String) (a : Money)
    (out : OpResult × SendMoneyTx)
    (hall : ∀ u, 0 ≤ (s.wallets u).balance) (ha : 0 ≤ a)
    (hok : sendMoneyCreate s sid ph a = .ok out) :
    ∀ u, 0 ≤ (out.1.state.wallets u).balance := by
  unfold sendMoneyCreate at hok
  cases hph : s.userOfPhone ph with
  | none => simp only [hph] at hok; exact absurd hok (by simp)
  | some rid =>
    simp only [hph] at hok
    cases hch : get_transaction_charge s.bands .SEND_MONEY a with
    | error e => simp only [hch] at hok; exact absurd hok (by simp)
    | ok charge =>
      simp only [hch] at hok
      split at hok
      · rename_i hcan
        injection hok with h
        subst h
        have h1 := setBalance_nonneg s sid _
          (sub_nonneg.mpr (can_transact_le _ _ hcan)) hall
        exact setBalance_nonneg _ rid _ (add_nonneg (h1 rid) ha) h1
      · exact absurd hok (by simp)

theorem withdrawal_ok_nonneg (s : State) (cid : Nat) (an : String) (a : Money)
    (out : OpResult × WithdrawalTx)
    (hall : ∀ u, 0 ≤ (s.wallets u).balance)
    (hok : withdrawalCreate s cid an a = .ok out) :
    ∀ u, 0 ≤ (out.1.state.wallets u).balance := by
  unfold withdrawalCreate at hok
  cases hag : s.agents an with
  | none => simp only [hag] at hok; exact absurd hok (by simp)
  | some agent =>
    simp only [hag] at hok
    split at hok
    · split at hok
      · exact absurd hok (by simp)
      · cases hch : get_transaction_charge s.bands .WITHDRAWAL a with
        | error e => simp only [hch] at hok; exact absurd hok (by simp)
        | ok charge =>
          simp only [hch] at hok
          split at hok
          · rename_i hcan
            injection hok with h
            subst h
            exact setBalance_nonneg s cid _
              (sub_nonneg.mpr (can_transact_le _ _ hcan)) hall
          · exact absurd hok (by simp)
    · exact absurd hok (by simp)

theorem deposit_ok_nonneg (s : State) (b : Bool) (an cp : String) (a : Money)
    (out : OpResult × DepositTx)
    (hall : ∀ u, 0 ≤ (s.wallets u).balance) (ha : 0 ≤ a)
    (hok : depositCreate s b an cp a = .ok out) :
    ∀ u, 0 ≤ (out.1.state.wallets u).balance := by
  unfold depositCreate at hok
  split at hok
  · cases hag : s.agents an with
    | none => simp only [hag] at hok; exact absurd hok (by simp)
    | some agent =>
      simp only [hag] at hok
      cases hcp : s.userOfPhone cp with
      | none => simp only [hcp] at hok; exact absurd hok (by simp)
      | some cid =>
        simp only [hcp] at hok
        split at hok
        · exact absurd hok (by simp)
        · injection hok with h
          subst h
          exact setBalance_nonneg s cid _ (add_nonneg (hall cid) ha) hall
  · exact absurd hok (by simp)

theorem payBill_ok_nonneg (s : State) (pid : Nat) (bn an : String) (a : Money)
    (out : OpResult × PayBillTx)
    (hall : ∀ u, 0 ≤ (s.wallets u).balance) (ha : 0 ≤ a)
    (hok : payBillCreate s pid bn an a = .ok out) :
    ∀ u, 0 ≤ (out.1.state.wallets u).balance := by
  unfold payBillCreate at hok
  cases hm : s.merchants bn with
  | none => simp only [hm] at hok; exact absurd hok (by simp)
  | some merchant =>
    simp only [hm] at hok
    split at hok
    · cases hch : get_transaction_charge s.bands .PAYBILL a with
      | error e => simp only [hch] at hok; exact absurd hok (by simp)
      | ok charge =>
        simp only [hch] at hok
        split at hok
        · rename_i hcan
          injection hok with h
          subst h
          have h1 := setBalance_nonneg s pid _
            (sub_nonneg.mpr (can_transact_le _ _ hcan)) hall
          exact setBalance_nonneg _ merchant.userId _
            (add_nonneg (h1 merchant.userId) ha) h1
        · exact absurd hok (by simp)
    · exact absurd hok (by simp)

theorem buyGoods_ok_nonneg (s : State) (bid : Nat) (tn : String) (a : Money)
    (out : OpResult × BuyGoodsTx)
    (hall : ∀ u, 0 ≤ (s.wallets u).balance) (ha : 0 ≤ a)
    (hok : buyGoodsCreate s bid tn a = .ok out) :
    ∀ u, 0 ≤ (out.1.state.wallets u).balance := by
  unfold buyGoodsCreate at hok
  cases hm : s.merchants tn with
  | none => simp only [hm] at hok; exact absurd hok (by simp)
  | some merchant =>
    simp only [hm] at hok
    split at hok
    · cases hch : get_transaction_charge s.bands .BUY_GOODS a with
      | error e => simp only [hch] at hok; exact absurd hok (by simp)
      | ok charge =>
        simp only [hch] at hok
        split at hok
        · rename_i hcan
          injection hok with h
          subst h
          have h1 := setBalance_nonneg s bid _
            (sub_nonneg.mpr (can_transact_le _ _ hcan)) hall
          exact setBalance_nonneg _ merchant.userId _
            (add_nonneg (h1 merchant.userId) ha) h1
        · exact absurd hok (by simp)
    · exact absurd hok (by simp)

theorem airtime_ok_nonneg (s : State) (bid : Nat) (rp nw : String) (a : Money)
    (out : OpResult × AirtimePurchaseTx)
    (hall : ∀ u, 0 ≤ (s.wallets u).balance)
    (hok : airtimeCreate s bid rp nw a = .ok out) :
    ∀ u, 0 ≤ (out.1.state.wallets u).balance := by
  unfold airtimeCreate at hok
  split at hok
  · rename_i hcan
    injection hok with h
    subst h
    exact setBalance_nonneg s bid _
      (sub_nonneg.mpr (can_transact_le _ _ hcan)) hall
  · exact absurd hok (by simp)

theorem loanApproveCore_ok (l : Loan) (w : WalletS) (l1 : Loan) (w1 : WalletS)
    (txn : WalletTxn) (hok : loanApproveCore l w = .ok (l1, w1, txn)) :
    l.status = .PENDING ∧
    l1 = { l with status := .DISBURSED } ∧
    w1 = { w with balance := w.balance + l.principal_amount } ∧
    txn.wallet = l.borrower := by
  unfold loanApproveCore at hok
  split at hok
  · rename_i hst
    injection hok with h
    injection h with h1 h23
    injection h23 with h2 h3
    exact ⟨hst, h1.symm, h2.symm, (congrArg WalletTxn.wallet h3).symm⟩
  · exact absurd hok (by simp)

theorem loanRepayCore_ok (cid : Nat) (l : Loan) (w : WalletS) (a : Money)
    (l1 : Loan) (w1 : WalletS) (rep : LoanRepaymentRec) (txn : WalletTxn)
    (hok : loanRepayCore cid l w a = .ok (l1, w1, rep, txn)) :
    (l.status = .ACTIVE ∨ l.status = .DISBURSED) ∧
    ∃ a2 : Money, a2 = (if l.balance < a then l.balance else a) ∧
      w.can_transact a2 = true ∧
      w1 = { w with balance := w.balance - a2 } ∧
      l1 = { l with
        amount_paid := l.amount_paid + a2,
        balance := l.balance - a2,
        status := if l.balance - a2 = 0 then .PAID else .ACTIVE } ∧
      txn.wallet = cid := by
  unfold loanRepayCore at hok
  split at hok
  · rename_i hst
    split at hok
    · rename_i hlt
      simp only [] at hok
      split at hok
      · rename_i hcan
        injection hok with h
        injection h with h1 h2
        injection h2 with h2 h3
        injection h3 with h3 h4
        exact ⟨hst, l.balance, (if_pos hlt).symm, hcan, h2.symm, h1.symm,
          (congrArg WalletTxn.wallet h4).symm⟩
      · exact absurd hok (by simp)
    · rename_i hlt
      simp only [] at hok
      split at hok
      · rename_i hcan
        injection hok with h
        injection h with h1 h2
        injection h2 with h2 h3
        injection h3 with h3 h4
        exact ⟨hst, a, (if_neg hlt).symm, hcan, h2.symm, h1.symm,
          (congrArg WalletTxn.wallet h4).symm⟩
      · exact absurd hok (by simp)
  · exact absurd hok (by simp)

/-- Claim C2 (amended: request amounts restricted to be non-negative): every
wallet-mutating operation — send money, withdrawal, deposit, paybill, buy
goods, airtime purchase, loan disbursement, loan repayment — preserves
non-negativity of all wallet balances: from a state in which every wallet
balance is >= 0, a request with amount >= 0 (for disbursement, principal
>= 0) that succeeds leaves every wallet balance >= 0. -/
theorem wallet_nonneg_preserved (s : State) (op : Op) (r : OpResult)
    (hall : ∀ u, 0 ≤ (s.wallets u).balance)
    (hamt : 0 ≤ op.reqAmount)
    (hok : applyOp s op = .ok r) :
    ∀ u, 0 ≤ (r.state.wallets u).balance := by
  cases op with
  | sendMoney sid ph a =>
    cases he : sendMoneyCreate s sid ph a with
    | error e =>
      rw [applyOp, he] at hok; exact absurd hok (by simp [Except.map])
    | ok out =>
      rw [applyOp, he] at hok
      simp only [Except.map] at hok
      injection hok with h
      subst h
      exact sendMoney_ok_nonneg s sid ph a out hall hamt he
  | withdrawal cid an a =>
    cases he : withdrawalCreate s cid an a with
    | error e =>
      rw [applyOp, he] at hok; exact absurd hok (by simp [Except.map])
    | ok out =>
      rw [applyOp, he] at hok
      simp only [Except.map] at hok
      injection hok with h
      subst h
      exact withdrawal_ok_nonneg s cid an a out hall he
  | deposit b an cp a =>
    cases he : depositCreate s b an cp a with
    | error e =>
      rw [applyOp, he] at hok; exact absurd hok (by simp [Except.map])
    | ok out =>
      rw [applyOp, he] at hok
      simp only [Except.map] at hok
      injection hok with h
      subst h
      exact deposit_ok_nonneg s b an cp a out hall hamt he
  | payBill pid bn an a =>
    cases he : payBillCreate s pid bn an a with
    | error e =>
      rw [applyOp, he] at hok; exact absurd hok (by simp [Except.map])
    | ok out =>
      rw [applyOp, he] at hok
      simp only [Except.map] at hok
      injection hok with h
      subst h
      exact payBill_ok_nonneg s pid bn an a out hall hamt he
  | buyGoods bid tn a =>
    cases he : buyGoodsCreate s bid tn a with
    | error e =>
      rw [applyOp, he] at hok; exact absurd hok (by simp [Except.map])
    | ok out =>
      rw [applyOp, he] at hok
      simp only [Except.map] at hok
      injection hok with h
      subst h
      exact buyGoods_ok_nonneg s bid tn a out hall hamt he
  | airtime bid rp nw a =>
    cases he : airtimeCreate s bid rp nw a with
    | error e =>
      rw [applyOp, he] at hok; exact absurd hok (by simp [Except.map])
    | ok out =>
      rw [applyOp, he] at hok
      simp only [Except.map] at hok
      injection hok with h
      subst h
      exact airtime_ok_nonneg s bid rp nw a out hall he
  | loanApprove l =>
    cases he : loanApproveCore l (s.wallets l.borrower) with
    | error e => rw [applyOp, he] at hok; exact absurd hok (by simp)
    | ok val =>
      obtain ⟨l1, w1, txn⟩ := val
      rw [applyOp, he] at hok
      injection hok with h
      subst h
      obtain ⟨-, -, hw, -⟩ := loanApproveCore_ok l _ l1 w1 txn he
      refine setWallet_nonneg s l.borrower w1 ?_ hall
      rw [hw]
      exact add_nonneg (hall l.borrower) hamt
  | loanRepay cid l a =>
    cases he : loanRepayCore cid l (s.wallets cid) a with
    | error e => rw [applyOp, he] at hok; exact absurd hok (by simp)
    | ok val =>
      obtain ⟨l1, w1, rep, txn⟩ := val
      rw [applyOp, he] at hok
      injection hok with h
      subst h
      obtain ⟨-, a2, -, hcan, hw, -, -⟩ := loanRepayCore_ok cid l _ a l1 w1 rep txn he
      refine setWallet_nonneg s cid w1 ?_ hall
      rw [hw]
      exact sub_nonneg.mpr (can_transact_le _ _ hcan)

/-- State for the claim C2 counterexample: every wallet holds 0, the agent
AG (user 2) has float 0 and commission rate 10, customer phone C is user 1. -/
def c2State : State :=
  { wallets := fun _ => ⟨0, true⟩,
    userOfPhone := fun p => if p = "C" then some 1 else none,
    agents := fun n => if n = "AG" then some ⟨2, 0, 10, true⟩ else none,
    merchants := fun _ => none,
    bands := [] }

/-- Result of the agent depositing -100 to customer 1: the float check
`0 < -100` passes vacuously and the customer wallet is driven to -100. -/
def c2Out : OpResult :=
  ⟨setAgent (setBalance c2State 1 (-100)) "AG" ⟨2, 100, 10, true⟩,
    [⟨1, .DEPOSIT, -100, 0, -100, .COMPLETED⟩], [],
    [⟨2, .DEPOSIT, -10⟩]⟩

/-- Counterexample to claim C2 as stated: starting from a state where the
customer wallet holds exactly 0, a deposit request with amount -100 (which
the interface accepts) succeeds and leaves that wallet at -100 < 0. -/
theorem wallet_nonneg_counterexample :
    (c2State.wallets 1).balance = 0 ∧
    applyOp c2State (.deposit true "AG" "C" (-100)) = .ok c2Out ∧
    (c2Out.state.wallets 1).balance = -100 ∧
    ¬ (0 ≤ (c2Out.state.wallets 1).balance) := by
  refine ⟨rfl, ?_, ?_, ?_⟩ <;>
    norm_num [applyOp, depositCreate, c2Out, c2State, setBalance, setWallet,
      setAgent, Except.map]

/-- State for the claim C2 witness: as `c2State` but the agent float is
500, so a positive deposit can succeed. -/
def c2WitState : State :=
  { wallets := fun _ => ⟨0, true⟩,
    userOfPhone := fun p => if p = "C" then some 1 else none,
    agents := fun n => if n = "AG" then some ⟨2, 500, 10, true⟩ else none,
    merchants := fun _ => none,
    bands := [] }

/-- Result of the agent depositing 100 to customer 1 in `c2WitState`. -/
def c2WitOut : OpResult :=
  ⟨setAgent (setBalance c2WitState 1 100) "AG" ⟨2, 400, 10, true⟩,
    [⟨1, .DEPOSIT, 100, 0, 100, .COMPLETED⟩], [],
    [⟨2, .DEPOSIT, 10⟩]⟩

theorem c2wit_eval :
    applyOp c2WitState (.deposit true "AG" "C" 100) = .ok c2WitOut := by
  norm_num [applyOp, depositCreate, c2WitOut, c2WitState, setBalance,
    setWallet, setAgent, Except.map]

/-- Concrete instance for `wallet_nonneg_preserved`: after a successful
deposit of 100 from an all-zero non-negative state, the credited customer
wallet and the agent's own wallet are still non-negative. -/
theorem wallet_nonneg_preserved_witness :
    0 ≤ (c2WitOut.state.wallets 1).balance ∧
    0 ≤ (c2WitOut.state.wallets 2).balance := by
  have h := wallet_nonneg_preserved c2WitState (.deposit true "AG" "C" 100)
    c2WitOut (fun u => by norm_num [c2WitState]) (by norm_num [Op.reqAmount])
    c2wit_eval
  exact ⟨h 1, h 2⟩

theorem sendMoney_ok_rows (s : State) (sid : Nat) (ph : String) (a : Money)
    (out : OpResult × SendMoneyTx)
    (hok : sendMoneyCreate s sid ph a = .ok out) :
    out.1.floatRows = [] ∧
    ∃ rid, s.userOfPhone ph = some rid ∧
      out.1.walletTxns.map WalletTxn.wallet = [sid, rid] := by
  unfold sendMoneyCreate at hok
  cases hph : s.userOfPhone ph with
  | none => simp only [hph] at hok; exact absurd hok (by simp)
  | some rid =>
    simp only [hph] at hok
    cases hch : get_transaction_charge s.bands .SEND_MONEY a with
    | error e => simp only [hch] at hok; exact absurd hok (by simp)
    | ok charge =>
      simp only [hch] at hok
      split at hok
      · injection hok with h
        subst h
        exact ⟨rfl, rid, rfl, rfl⟩
      · exact absurd hok (by simp)

theorem withdrawal_ok_rows (s : State) (cid : Nat) (an : String) (a : Money)
    (out : OpResult × WithdrawalTx)
    (hok : withdrawalCreate s cid an a = .ok out) :
    out.1.floatRows = [] ∧ out.1.walletTxns.map WalletTxn.wallet = [cid] := by
  unfold withdrawalCreate at hok
  cases hag : s.agents an with
  | none => simp only [hag] at hok; exact absurd hok (by simp)
  | some agent =>
    simp only [hag] at hok
    split at hok
    · split at hok
      · exact absurd hok (by simp)
      · cases hch : get_transaction_charge s.bands .WITHDRAWAL a with
        | error e => simp only [hch] at hok; exact absurd hok (by simp)
        | ok charge =>
          simp only [hch] at hok
          split at hok
          · injection hok with h
            subst h
            exact ⟨rfl, rfl⟩
          · exact absurd hok (by simp)
    · exact absurd hok (by simp)

theorem deposit_ok_rows (s : State) (b : Bool) (an cp : String) (a : Money)
    (out : OpResult × DepositTx)
    (hok : depositCreate s b an cp a = .ok out) :
    out.1.floatRows = [] ∧
    ∃ cid, s.userOfPhone cp = some cid ∧
      out.1.walletTxns.map WalletTxn.wallet = [cid] := by
  unfold depositCreate at hok
  split at hok
  · cases hag : s.agents an with
    | none => simp only [hag] at hok; exact absurd hok (by simp)
    | some agent =>
      simp only [hag] at hok
      cases hcp : s.userOfPhone cp with
      | none => simp only [hcp] at hok; exact absurd hok (by simp)
      | some cid =>
        simp only [hcp] at hok
        split at hok
        · exact absurd hok (by simp)
        · injection hok with h
          subst h
          exact ⟨rfl, cid, rfl, rfl⟩
  · exact absurd hok (by simp)

theorem payBill_ok_rows (s : State) (pid : Nat) (bn an : String) (a : Money)
    (out : OpResult × PayBillTx)
    (hok : payBillCreate s pid bn an a = .ok out) :
    out.1.floatRows = [] ∧ out.1.walletTxns.map WalletTxn.wallet = [pid] := by
  unfold payBillCreate at hok
  cases hm : s.merchants bn with
  | none => simp only [hm] at hok; exact absurd hok (by simp)
  | some merchant =>
    simp only [hm] at hok
    split at hok
    · cases hch : get_transaction_charge s.bands .PAYBILL a with
      | error e => simp only [hch] at hok; exact absurd hok (by simp)
      | ok charge =>
        simp only [hch] at hok
        split at hok
        · injection hok with h
          subst h
          exact ⟨rfl, rfl⟩
        · exact absurd hok (by simp)
    · exact absurd hok (by simp)

theorem buyGoods_ok_rows (s : State) (bid : Nat) (tn : String) (a : Money)
    (out : OpResult × BuyGoodsTx)
    (hok : buyGoodsCreate s bid tn a = .ok out) :
    out.1.floatRows = [] ∧ out.1.walletTxns.map WalletTxn.wallet = [bid] := by
  unfold buyGoodsCreate at hok
  cases hm : s.merchants tn with
  | none => simp only [hm] at hok; exact absurd hok (by simp)
  | some merchant =>
    simp only [hm] at hok
    split at hok
    · cases hch : get_transaction_charge s.bands .BUY_GOODS a with
      | error e => simp only [hch] at hok; exact absurd hok (by simp)
      | ok charge =>
        simp only [hch] at hok
        split at hok
        · injection hok with h
          subst h
          exact ⟨rfl, rfl⟩
        · exact absurd hok (by simp)
    · exact absurd hok (by simp)

theorem airtime_ok_rows (s : State) (bid : Nat) (rp nw : String) (a : Money)
    (out : OpResult × AirtimePurchaseTx)
    (hok : airtimeCreate s bid rp nw a = .ok out) :
    out.1.floatRows = [] ∧ out.1.walletTxns.map WalletTxn.wallet = [bid] := by
  unfold airtimeCreate at hok
  split at hok
  · injection hok with h
    subst h
    exact ⟨rfl, rfl⟩
  · exact absurd hok (by simp)

/-- Claim C3 (amended: ledger rows exist only for the initiating customer
wallets): a completed send money persists one WalletTransaction per each of
the sender and receiver wallets; completed withdrawal, deposit, paybill,
buy goods, airtime, loan disbursement and loan repayment persist exactly one
WalletTransaction, for the paying (or credited, for deposit/disbursement)
customer wallet; the merchant wallet credited by paybill/buy-goods gets no
ledger row, and no mutated agent float ever gets an AgentFloat row. -/
theorem ledger_rows_only_for_initiator (s : State) (op : Op) (r : OpResult)
    (hok : applyOp s op = .ok r) :
    r.floatRows = [] ∧
    (match op with
      | .sendMoney sid ph _ => ∃ rid, s.userOfPhone ph = some rid ∧
          r.walletTxns.map WalletTxn.wallet = [sid, rid]
      | .withdrawal cid _ _ => r.walletTxns.map WalletTxn.wallet = [cid]
      | .deposit _ _ cp _ => ∃ cid, s.userOfPhone cp = some cid ∧
          r.walletTxns.map WalletTxn.wallet = [cid]
      | .payBill pid _ _ _ => r.walletTxns.map WalletTxn.wallet = [pid]
      | .buyGoods bid _ _ => r.walletTxns.map WalletTxn.wallet = [bid]
      | .airtime bid _ _ _ => r.walletTxns.map WalletTxn.wallet = [bid]
      | .loanApprove l => r.walletTxns.map WalletTxn.wallet = [l.borrower]
      | .loanRepay cid _ _ => r.walletTxns.map WalletTxn.wallet = [cid]) := by
  cases op with
  | sendMoney sid ph a =>
    cases he : sendMoneyCreate s sid ph a with
    | error e => rw [applyOp, he] at hok; exact absurd hok (by simp [Except.map])
    | ok out =>
      rw [applyOp, he] at hok
      simp only [Except.map] at hok
      injection hok with h
      subst h
      exact sendMoney_ok_rows s sid ph a out he
  | withdrawal cid an a =>
    cases he : withdrawalCreate s cid an a with
    | error e => rw [applyOp, he] at hok; exact absurd hok (by simp [Except.map])
    | ok out =>
      rw [applyOp, he] at hok
      simp only [Except.map] at hok
      injection hok with h
      subst h
      exact withdrawal_ok_rows s cid an a out he
  | deposit b an cp a =>
    cases he : depositCreate s b an cp a with
    | error e => rw [applyOp, he] at hok; exact absurd hok (by simp [Except.map])
    | ok out =>
      rw [applyOp, he] at hok
      simp only [Except.map] at hok
      injection hok with h
      subst h
      exact deposit_ok_rows s b an cp a out he
  | payBill pid bn an a =>
    cases he : payBillCreate s pid bn an a with
    | error e => rw [applyOp, he] at hok; exact absurd hok (by simp [Except.map])
    | ok out =>
      rw [applyOp, he] at hok
      simp only [Except.map] at hok
      injection hok with h
      subst h
      exact payBill_ok_rows s pid bn an a out he
  | buyGoods bid tn a =>
    cases he : buyGoodsCreate s bid tn a with
    | error e => rw [applyOp, he] at hok; exact absurd hok (by simp [Except.map])
    | ok out =>
      rw [applyOp, he] at hok
      simp only [Except.map] at hok
      injection hok with h
      subst h
      exact buyGoods_ok_rows s bid tn a out he
  | airtime bid rp nw a =>
    cases he : airtimeCreate s bid rp nw a with
    | error e => rw [applyOp, he] at hok; exact absurd hok (by simp [Except.map])
    | ok out =>
      rw [applyOp, he] at hok
      simp only [Except.map] at hok
      injection hok with h
      subst h
      exact airtime_ok_rows s bid rp nw a out he
  | loanApprove l =>
    cases he : loanApproveCore l (s.wallets l.borrower) with
    | error e => rw [applyOp, he] at hok; exact absurd hok (by simp)
    | ok val =>
      obtain ⟨l1, w1, txn⟩ := val
      rw [applyOp, he] at hok
      injection hok with h
      subst h
      obtain ⟨-, -, -, htxn⟩ := loanApproveCore_ok l _ l1 w1 txn he
      exact ⟨rfl, by simp [htxn]⟩
  | loanRepay cid l a =>
    cases he : loanRepayCore cid l (s.wallets cid) a with
    | error e => rw [applyOp, he] at hok; exact absurd hok (by simp)
    | ok val =>
      obtain ⟨l1, w1, rep, txn⟩ := val
      rw [applyOp, he] at hok
      injection hok with h
      subst h
      obtain ⟨-, a2, -, -, -, -, htxn⟩ := loanRepayCore_ok cid l _ a l1 w1 rep txn he
      exact ⟨rfl, by simp [htxn]⟩

/-- State for the claim C3 counterexample: payer (user 0) and PAYBILL
merchant 111 whose wallet is user 1; every wallet holds 1000. -/
def c3State : State :=
  { wallets := fun _ => ⟨1000, true⟩,
    userOfPhone := fun _ => none,
    agents := fun _ => none,
    merchants := fun n => if n = "111" then some ⟨1, .PAYBILL, true⟩ else none,
    bands := [] }

/-- Result of user 0 paying bill 111 for 200 (no charge band, fee 0). -/
def c3Out : OpResult :=
  ⟨setBalance (setBalance c3State 0 800) 1 1200,
    [⟨0, .PAYBILL, 200, 1000, 800, .COMPLETED⟩], [], []⟩

/-- Counterexample to claim C3 as stated: a completed paybill payment
mutates the merchant wallet (user 1, credited 200) but persists no ledger
row for it — the only WalletTransaction row is for the payer's wallet. -/
theorem ledger_rows_counterexample :
    applyOp c3State (.payBill 0 "111" "acc" 200) = .ok c3Out ∧
    (c3Out.state.wallets 1).balance = (c3State.wallets 1).balance + 200 ∧
    c3Out.walletTxns.map WalletTxn.wallet = [0] ∧
    ¬ (1 ∈ c3Out.walletTxns.map WalletTxn.wallet) ∧
    c3Out.floatRows = [] := by
  refine ⟨?_, ?_, rfl, by decide, rfl⟩ <;>
    norm_num [applyOp, payBillCreate, c3Out, c3State, get_transaction_charge,
      matchingBands, bandMatches, WalletS.can_transact, setBalance, setWallet,
      Except.map]

/-- State for the claim C3 witness: user 0 holds 500 and buys airtime. -/
def c3WitState : State :=
  { wallets := fun _ => ⟨500, true⟩,
    userOfPhone := fun _ => none,
    agents := fun _ => none,
    merchants := fun _ => none,
    bands := [] }

/-- Result of user 0 buying 50 of airtime. -/
def c3WitOut : OpResult :=
  ⟨setBalance c3WitState 0 450, [⟨0, .AIRTIME, 50, 500, 450, .COMPLETED⟩],
    [], []⟩

theorem c3wit_eval :
    applyOp c3WitState (.airtime 0 "p" "SAFARICOM" 50) = .ok c3WitOut := by
  norm_num [applyOp, airtimeCreate, c3WitOut, c3WitState,
    WalletS.can_transact, setBalance, setWallet, Except.map]

/-- Concrete instance for `ledger_rows_only_for_initiator`: the completed
airtime purchase persisted no AgentFloat row and exactly one ledger row, for
the buyer's wallet. -/
theorem ledger_rows_only_for_initiator_witness :
    c3WitOut.floatRows = [] ∧
    c3WitOut.walletTxns.map WalletTxn.wallet = [0] := by
  have h := ledger_rows_only_for_initiator c3WitState
    (.airtime 0 "p" "SAFARICOM" 50) c3WitOut c3wit_eval
  exact ⟨h.1, h.2⟩

/-- Claim C8: a completed withdrawal of amount a via an agent with resolved
fee f debits the customer's wallet by exactly a + f, debits the agent's
float_balance by exactly a, and creates one Commission record for the
agent's user with amount 30% of f. -/
theorem withdrawal_correct (s : State) (cid : Nat) (an : String)
    (amount fee : Money) (ag : AgentRec) (out : OpResult × WithdrawalTx)
    (hag : s.agents an = some ag)
    (hfee : get_transaction_charge s.bands .WITHDRAWAL amount = .ok fee)
    (hok : withdrawalCreate s cid an amount = .ok out) :
    (out.1.state.wallets cid).balance
      = (s.wallets cid).balance - (amount + fee) ∧
    out.1.state.agents an
      = some { ag with float_balance := ag.float_balance - amount } ∧
    out.1.commissions = [⟨ag.userId, .WITHDRAWAL, fee * (3 / 10)⟩] ∧
    out.2.agent_commission = fee * (3 / 10) ∧
    out.2.status = .COMPLETED := by
  unfold withdrawalCreate at hok
  simp only [hag] at hok
  split at hok
  · split at hok
    · exact absurd hok (by simp)
    · simp only [hfee] at hok
      split at hok
      · injection hok with h
        subst h
        refine ⟨?_, ?_, rfl, rfl, rfl⟩
        · simp [setAgent_wallets, setBalance_wallets_same]
        · simp [setAgent]
      · exact absurd hok (by simp)
  · exact absurd hok (by simp)

/-- State for the claim C8 scenario: customer 0 holds 1000, agent AG
(user 5) has float 10000, and WITHDRAWAL amounts 1-1000 carry a flat fee of
30. -/
def c8State : State :=
  { wallets := fun _ => ⟨1000, true⟩,
    userOfPhone := fun _ => none,
    agents := fun n => if n = "AG" then some ⟨5, 10000, 0, true⟩ else none,
    merchants := fun _ => none,
    bands := [⟨.WITHDRAWAL, 1, 1000, 30, true⟩] }

/-- Result of customer 0 withdrawing 500 at agent AG. -/
def c8Out : OpResult × WithdrawalTx :=
  (⟨setAgent (setBalance c8State 0 470) "AG" ⟨5, 9500, 0, true⟩,
    [⟨0, .WITHDRAWAL, 530, 1000, 470, .COMPLETED⟩], [],
    [⟨5, .WITHDRAWAL, 9⟩]⟩,
    ⟨0, "AG", 500, 30, 530, 1000, 470, 9, .COMPLETED⟩)

theorem c8_eval : withdrawalCreate c8State 0 "AG" 500 = .ok c8Out := by
  norm_num [withdrawalCreate, c8Out, c8State, get_transaction_charge,
    matchingBands, bandMatches, WalletS.can_transact, setBalance, setWallet,
    setAgent]

/-- Concrete instance for `withdrawal_correct`: the spec scenario. Customer
withdraws 500 with fee 30 via an agent with float 10000: the customer is
debited 530, the float ends at 9500, and the Commission amount is 9. -/
theorem withdrawal_correct_witness :
    (c8Out.1.state.wallets 0).balance = 1000 - 530 ∧
    c8Out.1.state.agents "AG" = some ⟨5, 9500, 0, true⟩ ∧
    c8Out.1.commissions = [⟨5, .WITHDRAWAL, 9⟩] ∧
    c8Out.2.status = .COMPLETED := by
  have h := withdrawal_correct c8State 0 "AG" 500 30 ⟨5, 10000, 0, true⟩ c8Out
    (by norm_num [c8State])
    (by norm_num [c8State, get_transaction_charge, matchingBands, bandMatches])
    c8_eval
  refine ⟨h.1.trans ?_, h.2.1.trans ?_, h.2.2.1.trans ?_, h.2.2.2.2⟩
  · norm_num [c8State]
  · norm_num
  · norm_num

theorem loanCreate_ok (product : LoanProduct) (hasActive : Bool)
    (borrower : Nat) (p : Money) (l : Loan)
    (hok : loanCreate product hasActive borrower p = .ok l) :
    l.amount_paid = 0 ∧ l.balance = l.total_amount ∧ l.status = .PENDING ∧
    l.principal_amount = p ∧
    l.interest_amount = quantize2
      (p * (product.interest_rate / 365 / 100) * (product.duration_days : ℚ)) ∧
    l.total_amount = quantize2
      (p + p * (product.interest_rate / 365 / 100) * (product.duration_days : ℚ)
        + product.facilitation_fee) := by
  unfold loanCreate at hok
  split at hok
  · split at hok
    · exact absurd hok (by simp)
    · split at hok
      · exact absurd hok (by simp)
      · injection hok with h
        subst h
        exact ⟨rfl, rfl, rfl, rfl, rfl, rfl⟩
  · exact absurd hok (by simp)

/-- The loan ledger invariant of the spec: paid plus remaining balance is
the contracted total. -/
def LoanInv (l : Loan) : Prop := l.amount_paid + l.balance = l.total_amount

theorem loanRepayCore_inv (cid : Nat) (l : Loan) (w : WalletS) (a : Money)
    (l1 : Loan) (w1 : WalletS) (rep : LoanRepaymentRec) (txn : WalletTxn)
    (hinv : LoanInv l)
    (hok : loanRepayCore cid l w a = .ok (l1, w1, rep, txn)) :
    LoanInv l1 ∧ (l1.status = .PAID ↔ l1.balance = 0) := by
  obtain ⟨-, a2, -, -, -, hl, -⟩ := loanRepayCore_ok cid l w a l1 w1 rep txn hok
  subst hl
  constructor
  · unfold LoanInv at hinv ⊢
    dsimp only
    linarith [hinv]
  · dsimp only
    split
    · rename_i hz
      simp [hz]
    · rename_i hz
      simp [hz]

/-- Borrower-facing loan lifecycle steps built on the repository's approve
and repay actions; a failing request leaves the loan and wallet unchanged. -/
inductive LoanOp : Type
  | approve
  | repay (amount : Money)

/-- Run one lifecycle step against the loan and the borrower's wallet. -/
def applyLoanOp (lw : Loan × WalletS) : LoanOp → Loan × WalletS
  | .approve =>
    match loanApproveCore lw.1 lw.2 with
    | .error _ => lw
    | .ok (l1, w1, _) => (l1, w1)
  | .repay a =>
    match loanRepayCore lw.1.borrower lw.1 lw.2 a with
    | .error _ => lw
    | .ok (l1, w1, _, _) => (l1, w1)

/-- Run a sequence of lifecycle steps. -/
def applyLoanOps (lw : Loan × WalletS) : List LoanOp → Loan × WalletS
  | [] => lw
  | op :: ops => applyLoanOps (applyLoanOp lw op) ops

theorem applyLoanOp_inv (lw : Loan × WalletS) (op : LoanOp)
    (h : LoanInv lw.1) : LoanInv (applyLoanOp lw op).1 := by
  cases op with
  | approve =>
    cases he : loanApproveCore lw.1 lw.2 with
    | error e => simp only [applyLoanOp, he]; exact h
    | ok val =>
      obtain ⟨l1, w1, txn⟩ := val
      simp only [applyLoanOp, he]
      obtain ⟨-, hl, -, -⟩ := loanApproveCore_ok lw.1 lw.2 l1 w1 txn he
      subst hl
      exact h
  | repay a =>
    cases he : loanRepayCore lw.1.borrower lw.1 lw.2 a with
    | error e => simp only [applyLoanOp, he]; exact h
    | ok val =>
      obtain ⟨l1, w1, rep, txn⟩ := val
      simp only [applyLoanOp, he]
      exact (loanRepayCore_inv lw.1.borrower lw.1 lw.2 a l1 w1 rep txn h he).1

theorem applyLoanOps_inv (ops : List LoanOp) (lw : Loan × WalletS)
    (h : LoanInv lw.1) : LoanInv (applyLoanOps lw ops).1 := by
  induction ops generalizing lw with
  | nil => exact h
  | cons op ops ih => exact ih (applyLoanOp lw op) (applyLoanOp_inv lw op h)

/-- Claim C4: a loan starts with amount_paid = 0 and balance = total_amount;
the invariant amount_paid + balance = total_amount holds after creation and
after every sequence of lifecycle operations (approval and repayments, each
applied only when its guards pass); and after any successful repayment the
status is PAID exactly when the balance is 0. -/
theorem loan_invariant (product : LoanProduct) (hasActive : Bool)
    (borrower : Nat) (p : Money) (l0 : Loan) (w0 : WalletS)
    (hok : loanCreate product hasActive borrower p = .ok l0) :
    (l0.amount_paid = 0 ∧ l0.balance = l0.total_amount ∧ LoanInv l0) ∧
    (∀ ops : List LoanOp, LoanInv (applyLoanOps (l0, w0) ops).1) ∧
    (∀ (cid : Nat) (l : Loan) (w : WalletS) (a : Money) (l1 : Loan)
        (w1 : WalletS) (rep : LoanRepaymentRec) (txn : WalletTxn),
      LoanInv l → loanRepayCore cid l w a = .ok (l1, w1, rep, txn) →
      LoanInv l1 ∧ (l1.status = .PAID ↔ l1.balance = 0)) := by
  obtain ⟨h1, h2, -, -, -, -⟩ := loanCreate_ok product hasActive borrower p l0 hok
  have hinv : LoanInv l0 := by unfold LoanInv; rw [h1, h2]; ring
  refine ⟨⟨h1, h2, hinv⟩, ?_, ?_⟩
  · intro ops
    exact applyLoanOps_inv ops (l0, w0) hinv
  · intro cid l w a l1 w1 rep txn hi hrep
    exact loanRepayCore_inv cid l w a l1 w1 rep txn hi hrep

/-- The spec scenario loan product: principal range [1000, 5000], annual
rate 10%, duration 30 days, facilitation fee 50. -/
def loanScenarioProduct : LoanProduct := ⟨1000, 5000, 10, 30, 50, true⟩

/-- The loan stored for principal 2000 on `loanScenarioProduct`:
interest 16.44 and total 2066.44. -/
def loanScenarioLoan : Loan :=
  ⟨7, 2000, 1644 / 100, 50, 206644 / 100, 0, 206644 / 100, .PENDING⟩

theorem loanScenario_eval :
    loanCreate loanScenarioProduct false 7 2000 = .ok loanScenarioLoan := by
  norm_num [loanCreate, loanScenarioProduct, loanScenarioLoan, quantize2,
    roundHalfEven, Int.floor_eq_iff]

/-- A disbursed copy of the scenario loan, about to be repaid in full. -/
def c4RepayLoan : Loan :=
  ⟨7, 2000, 1644 / 100, 50, 206644 / 100, 0, 206644 / 100, .DISBURSED⟩

/-- The scenario loan after the full repayment: PAID with balance 0. -/
def c4RepayLoanAfter : Loan :=
  ⟨7, 2000, 1644 / 100, 50, 206644 / 100, 206644 / 100, 0, .PAID⟩

theorem c4repay_eval :
    loanRepayCore 7 c4RepayLoan ⟨10000, true⟩ (206644 / 100)
      = .ok (c4RepayLoanAfter, ⟨793356 / 100, true⟩,
          ⟨206644 / 100, 206644 / 100, 0⟩,
          ⟨7, .PAYMENT, 206644 / 100, 10000, 793356 / 100, .COMPLETED⟩) := by
  norm_num [loanRepayCore, c4RepayLoan, c4RepayLoanAfter, WalletS.can_transact]

/-- Concrete instance for `loan_invariant`: the scenario loan satisfies the
invariant at creation and after an approve-then-repay run, and a full
repayment of the disbursed loan yields status PAID with balance 0. -/
theorem loan_invariant_witness :
    loanScenarioLoan.amount_paid = 0 ∧
    loanScenarioLoan.balance = loanScenarioLoan.total_amount ∧
    LoanInv (applyLoanOps (loanScenarioLoan, ⟨10000, true⟩)
      [LoanOp.approve, LoanOp.repay 1000, LoanOp.repay 5000]).1 ∧
    (c4RepayLoanAfter.status = .PAID ↔ c4RepayLoanAfter.balance = 0) := by
  have h := loan_invariant loanScenarioProduct false 7 2000 loanScenarioLoan
    ⟨10000, true⟩ loanScenario_eval
  refine ⟨h.1.1, h.1.2.1, h.2.1 _, ?_⟩
  exact (h.2.2 7 c4RepayLoan ⟨10000, true⟩ (206644 / 100) c4RepayLoanAfter
    ⟨793356 / 100, true⟩ ⟨206644 / 100, 206644 / 100, 0⟩
    ⟨7, .PAYMENT, 206644 / 100, 10000, 793356 / 100, .COMPLETED⟩
    (by unfold LoanInv c4RepayLoan; norm_num) c4repay_eval).2

/-- Claim C5 (amended: the rounding of the stored figures is the decimal
context default ROUND_HALF_EVEN, not round-half-up, and the stored total is
the rounding of principal + unrounded interest + fee): for every loan
application with principal p on a product with annual rate r, duration d
days and fee c, the stored interest is p * r * d / 36500 rounded half-even
to 2 decimal places and the stored total is p + p * r * d / 36500 + c
rounded half-even to 2 decimal places; the spec scenario values 16.44 and
2066.44 are unchanged. -/
theorem loan_interest_formula (product : LoanProduct) (hasActive : Bool)
    (borrower : Nat) (p : Money) (l : Loan)
    (hok : loanCreate product hasActive borrower p = .ok l) :
    l.interest_amount = quantize2
      (p * product.interest_rate * (product.duration_days : ℚ) / 36500) ∧
    l.total_amount = quantize2
      (p + p * product.interest_rate * (product.duration_days : ℚ) / 36500
        + product.facilitation_fee) := by
  obtain ⟨-, -, -, -, hi, ht⟩ :=
    loanCreate_ok product hasActive borrower p l hok
  constructor
  · rw [hi]
    congr 1
    ring
  · rw [ht]
    congr 1
    ring

/-- The tie-case loan product for the claim C5 counterexample: rate 73% for
1 day makes the daily factor exactly 0.002, so principal 2.50 gives raw
interest 0.005 — a tie at the second decimal place. -/
def c5Product : LoanProduct := ⟨1, 10, 73, 1, 0, true⟩

/-- The loan the code stores for principal 2.50 on `c5Product`: the raw
interest 0.005 is quantized half-even to 0.00 (and the raw total 2.505 to
2.50). -/
def c5Loan : Loan := ⟨9, 5 / 2, 0, 0, 5 / 2, 0, 5 / 2, .PENDING⟩

/-- Counterexample to claim C5 as stated: at principal 2.50, rate 73%,
duration 1 day, fee 0, the code stores interest 0.00 and total 2.50
(ROUND_HALF_EVEN on the ties 0.005 and 2.505), while rounding the claimed
formula with round-half-up would give 0.01 and 2.51. -/
theorem loan_rounding_counterexample :
    loanCreate c5Product false 9 (5 / 2) = .ok c5Loan ∧
    c5Loan.interest_amount = 0 ∧
    quantizeHalfUp2 ((5 / 2) * c5Product.interest_rate
      * (c5Product.duration_days : ℚ) / 36500) = 1 / 100 ∧
    ¬ (c5Loan.interest_amount = quantizeHalfUp2 ((5 / 2)
        * c5Product.interest_rate * (c5Product.duration_days : ℚ) / 36500)) ∧
    c5Loan.total_amount = 5 / 2 ∧
    quantizeHalfUp2 ((5 / 2) + (5 / 2) * c5Product.interest_rate
      * (c5Product.duration_days : ℚ) / 36500
      + c5Product.facilitation_fee) = 251 / 100 := by
  refine ⟨?_, rfl, ?_, ?_, rfl, ?_⟩ <;>
    norm_num [loanCreate, c5Product, c5Loan, quantize2, quantizeHalfUp2,
      roundHalfEven, roundHalfUp, Int.floor_eq_iff]

/-- Concrete instance for `loan_interest_formula`: the spec scenario loan
(principal 2000, rate 10%, 30 days, fee 50) stores interest 16.44 and total
2066.44. -/
theorem loan_interest_formula_witness :
    loanScenarioLoan.interest_amount = 1644 / 100 ∧
    loanScenarioLoan.total_amount = 206644 / 100 := by
  have h := loan_interest_formula loanScenarioProduct false 7 2000
    loanScenarioLoan loanScenario_eval
  refine ⟨h.1.trans ?_, h.2.trans ?_⟩ <;>
    norm_num [loanScenarioProduct, quantize2, roundHalfEven, Int.floor_eq_iff]

/-- Fixed-width, zero-padded decimal rendering of a natural number, as each
strftime directive produces: w digits, high digit first. Faithful to
`datetime.strftime` for n below 10^w (always the case for the Python
datetime fields). -/
def padNum (w n : Nat) : String :=
  ⟨((List.range w).reverse).map fun i => Char.ofNat (48 + n / 10 ^ i % 10)⟩

/-- `datetime.now().strftime('%Y%m%d%H%M%S')` (views.py line 41): a 4-digit
year followed by five 2-digit fields. -/
def strftimeYmdHMS (yr mo dy hr mi sc : Nat) : String :=
  padNum 4 yr ++ padNum 2 mo ++ padNum 2 dy ++ padNum 2 hr ++ padNum 2 mi
    ++ padNum 2 sc

/-- Translation of `generate_transaction_id` (views.py lines 39-42): the
prefix, the 14-character timestamp, and the first 6 characters of the
32-character `uuid4().hex` uppercased. The clock fields and the uuid hex
digits are environment inputs. -/
def generate_transaction_id (pfx : String) (yr mo dy hr mi sc : Nat)
    (uuid_hex : List Char) : String :=
  pfx ++ strftimeYmdHMS yr mo dy hr mi sc
    ++ ⟨(uuid_hex.take 6).map Char.toUpper⟩

/-- `max_length=20` declared on `WalletTransaction.transaction_id`
(models.py line 107). -/
def walletTransaction_transaction_id_maxLength : Nat := 20

/-- `max_length=20` declared on `SendMoney.transaction_id` (models.py
line 230). -/
def sendMoney_transaction_id_maxLength : Nat := 20

/-- Every kind tag the views pass to `generate_transaction_id`, plus the
default TXN (views.py lines 362, 477, 582, 684, 782, 860, 1044, 1122, 39). -/
def viewIdKindTags : List String :=
  ["SM", "WD", "DP", "PB", "BG", "AT", "LN", "LR", "TXN"]

theorem padNum_length (w n : Nat) : (padNum w n).length = w := by
  simp [padNum, String.length]

theorem strftimeYmdHMS_length (yr mo dy hr mi sc : Nat) :
    (strftimeYmdHMS yr mo dy hr mi sc).length = 14 := by
  simp [strftimeYmdHMS, String.length_append, padNum_length]

/-- Claim C10: every identifier produced by `generate_transaction_id` is
the prefix, a 14-digit timestamp and 6 hex characters, so its length is the
prefix length plus 20; for every prefix the views pass this exceeds the
`max_length` of 20 declared on the `transaction_id` fields that store it. -/
theorem transaction_id_length (pfx : String) (yr mo dy hr mi sc : Nat)
    (uuid_hex : List Char) (hyr : yr < 10000) (hhex : uuid_hex.length = 32) :
    (generate_transaction_id pfx yr mo dy hr mi sc uuid_hex).length
      = pfx.length + 20 ∧
    (∀ p, p ∈ viewIdKindTags →
      walletTransaction_transaction_id_maxLength
        < (generate_transaction_id p yr mo dy hr mi sc uuid_hex).length ∧
      sendMoney_transaction_id_maxLength
        < (generate_transaction_id p yr mo dy hr mi sc uuid_hex).length) := by
  have hlen : ∀ q : String,
      (generate_transaction_id q yr mo dy hr mi sc uuid_hex).length
        = q.length + 20 := by
    intro q
    simp [generate_transaction_id, String.length_append, strftimeYmdHMS_length,
      hhex]
  refine ⟨hlen pfx, ?_⟩
  intro p hp
  rw [walletTransaction_transaction_id_maxLength,
    sendMoney_transaction_id_maxLength, hlen p]
  have hpos : 0 < p.length := by
    simp only [viewIdKindTags, List.mem_cons, List.not_mem_nil, or_false] at hp
    rcases hp with rfl | rfl | rfl | rfl | rfl | rfl | rfl | rfl | rfl <;> decide
  omega

/-- Concrete instance for `transaction_id_length`: the SM prefix with a
2025-10-12 11:22:33 clock and a concrete 32-character uuid hex yields an
identifier of length 22 > 20. -/
theorem transaction_id_length_witness :
    (generate_transaction_id "SM" 2025 10 12 11 22 33
      (List.replicate 32 'a')).length = ("SM" : String).length + 20 ∧
    walletTransaction_transaction_id_maxLength
      < (generate_transaction_id "SM" 2025 10 12 11 22 33
          (List.replicate 32 'a')).length := by
  have h := transaction_id_length "SM" 2025 10 12 11 22 33
    (List.replicate 32 'a') (by norm_num) (by simp)
  exact ⟨h.1, (h.2 "SM" (by simp [viewIdKindTags])).1⟩

end Mpesa
